import Mathlib

/-!
Shallow embedding of the affiliate-marketing bot server in
src/real-bot-engine.js: JS Map semantics, the RealBotEngine publishers,
product fetch and earnings getters, the BotManager scheduling layer and
the HTTP endpoint handlers that the verified claims refer to.

External collaborators (platform APIs, the payment processors, the
product search provider) are modelled as explicit outcome parameters at
each await point; JS numbers are modelled as rationals; timers are a
set of live interval handles plus the tracked handle map, and
Date.now() is a strictly increasing tick counter.
-/

/-- Insertion-ordered association list standing for a JS Map: set
overwrites the entry in place, keeping insertion order. -/
def mapSet {α : Type} : List (String × α) → String → α → List (String × α)
  | [], k, v => [(k, v)]
  | (k₁, v₁) :: rest, k, v =>
    if k₁ = k then (k, v) :: rest else (k₁, v₁) :: mapSet rest k v

/-- Map.get: the stored value, or none for a missing key (undefined). -/
def mapGet {α : Type} : List (String × α) → String → Option α
  | [], _ => none
  | (k₁, v₁) :: rest, k => if k₁ = k then some v₁ else mapGet rest k

/-- Map.has. -/
def mapHas {α : Type} (m : List (String × α)) (k : String) : Bool :=
  (mapGet m k).isSome

/-- Map.delete: removes the entry for the key, if any. -/
def mapDelete {α : Type} : List (String × α) → String → List (String × α)
  | [], _ => []
  | (k₁, v₁) :: rest, k => if k₁ = k then rest else (k₁, v₁) :: mapDelete rest k

theorem mapGet_mapSet_self {α : Type} (m : List (String × α)) (k : String) (v : α) :
    mapGet (mapSet m k v) k = some v := by
  induction m with
  | nil => simp [mapSet, mapGet]
  | cons hd tl ih =>
    obtain ⟨k₁, v₁⟩ := hd
    by_cases h : k₁ = k
    · simp [mapSet, mapGet, h]
    · simp [mapSet, mapGet, h, ih]

/-! ## RealBotEngine: products and publishers -/

/-- An Amazon catalog item as consumed by the engine: the posting and
link code reads ASIN and ItemInfo.Title; the feature list and image
URL only feed caption text, which is not modelled. -/
structure Product where
  asin : String
  title : String
deriving DecidableEq

/-- Outcome of one external platform API call at an await point: a
platform-assigned identifier, or a thrown error that the surrounding
catch block absorbs. -/
inductive ExtOutcome where
  | ok (id : String)
  | err
deriving DecidableEq

/-- Which credential-derived clients and config fields are present on
the engine (initializeClients plus this.config): exactly the values the
publishers null-check. -/
structure EngineConfig where
  twitterClient : Bool
  facebookClient : Bool
  facebookPageId : Bool
  instagramClient : Bool
  instagramUserId : Bool
  pinterestPresent : Bool
  pinterestToken : Bool
  tiktokToken : Bool
  ebayConfigured : Bool
deriving DecidableEq

/-- postToTwitter: guard on the initialized client, then the external
call; an API error is caught, logged and becomes null. The second
component records whether any external call was attempted. -/
def postToTwitter (cfg : EngineConfig) (_p : Product) (ext : ExtOutcome) :
    Option String × Bool :=
  if cfg.twitterClient = false then (none, false)
  else
    match ext with
    | ExtOutcome.ok id => (some id, true)
    | ExtOutcome.err => (none, true)

/-- postToFacebook: guard on the client and the configured page id,
then the graph call; errors become null. -/
def postToFacebook (cfg : EngineConfig) (_p : Product) (ext : ExtOutcome) :
    Option String × Bool :=
  if (cfg.facebookClient && cfg.facebookPageId) = false then (none, false)
  else
    match ext with
    | ExtOutcome.ok id => (some id, true)
    | ExtOutcome.err => (none, true)

/-- postToInstagram: guard on the client and the configured user id,
then the media-create and media-publish calls; errors become null. -/
def postToInstagram (cfg : EngineConfig) (_p : Product) (ext : ExtOutcome) :
    Option String × Bool :=
  if (cfg.instagramClient && cfg.instagramUserId) = false then (none, false)
  else
    match ext with
    | ExtOutcome.ok id => (some id, true)
    | ExtOutcome.err => (none, true)

/-- postToTikTok: placeholder integration. No credential check and no
external call: it logs and fabricates an identifier from the current
time, so it never returns null. -/
def postToTikTok (_p : Product) (now : Nat) : Option String × Bool :=
  (some ("tiktok_" ++ toString now), false)

/-- postToPinterest: no credential guard. When this.config.pinterest is
absent, reading board_id throws inside the try and is caught before the
HTTP call (null, no attempt); otherwise the pin-create call is
attempted with whatever token is configured, and an error becomes
null. -/
def postToPinterest (cfg : EngineConfig) (_p : Product) (ext : ExtOutcome) :
    Option String × Bool :=
  if cfg.pinterestPresent = false then (none, false)
  else
    match ext with
    | ExtOutcome.ok id => (some id, true)
    | ExtOutcome.err => (none, true)

/-- postToEbay: placeholder listing. No credential check and no
external call: it fabricates a listing identifier from the current
time, so it never returns null. -/
def postToEbay (_p : Product) (now : Nat) : Option String × Bool :=
  (some ("ebay_" ++ toString now), false)

/-- The six platform publishers of the engine. -/
inductive Plat where
  | twitter
  | facebook
  | instagram
  | tiktok
  | pinterest
  | ebay
deriving DecidableEq

/-- The uniform publish contract, dispatching to the per-platform
publisher. -/
def publish (pl : Plat) (cfg : EngineConfig) (p : Product) (ext : ExtOutcome)
    (now : Nat) : Option String × Bool :=
  match pl with
  | Plat.twitter => postToTwitter cfg p ext
  | Plat.facebook => postToFacebook cfg p ext
  | Plat.instagram => postToInstagram cfg p ext
  | Plat.tiktok => postToTikTok p now
  | Plat.pinterest => postToPinterest cfg p ext
  | Plat.ebay => postToEbay p now

/-- Whether the platform's credentials are configured, per the config
object fields each integration is meant to use. -/
def credsConfigured (pl : Plat) (cfg : EngineConfig) : Bool :=
  match pl with
  | Plat.twitter => cfg.twitterClient
  | Plat.facebook => cfg.facebookClient && cfg.facebookPageId
  | Plat.instagram => cfg.instagramClient && cfg.instagramUserId
  | Plat.tiktok => cfg.tiktokToken
  | Plat.pinterest => cfg.pinterestPresent && cfg.pinterestToken
  | Plat.ebay => cfg.ebayConfigured

/-! ## RealBotEngine: product fetch, links and the cycle runner -/

/-- Provider response to the PAAPI searchitems call: a successful HTTP
response whose SearchResult.Items may be missing, or a failure (auth,
network, malformed, missing config) that the catch block absorbs. -/
inductive AmazonResponse where
  | ok (items : Option (List Product))
  | fail (msg : String)
deriving DecidableEq

/-- fetchAmazonProducts: sends the keyword and ItemCount := maxProducts
to the provider, returns SearchResult?.Items or [], and returns [] from
the catch block on any error. The response does not get truncated by
the engine; the bound is delegated to the provider via ItemCount. -/
def fetchAmazonProducts (_keyword : String) (_maxProducts : Nat)
    (resp : AmazonResponse) : List Product :=
  match resp with
  | AmazonResponse.ok (some items) => items
  | AmazonResponse.ok none => []
  | AmazonResponse.fail _ => []

/-- generateAffiliateLinks: deterministic tagged product URL. -/
def generateAffiliateLinks (tag : String) (p : Product) : String :=
  "https://amazon.com/dp/" ++ p.asin ++ "?tag=" ++ tag ++ "&ref=paapi5_dp"

/-- One recorded post: platform, external post id, product title,
affiliate link and the Date.now() tick at the push. -/
structure PostResult where
  platform : String
  postId : String
  product : String
  affiliateLink : String
  timestamp : Nat
deriving DecidableEq

/-- The platform switch inside runBotCycle: platform names outside the
six cases leave postId null (the switch has no default). The ext oracle
gives the external outcome per platform and product. -/
def platformPost (cfg : EngineConfig) (ext : String → Product → ExtOutcome)
    (platform : String) (p : Product) (now : Nat) : Option String × Bool :=
  if platform = "twitter" then postToTwitter cfg p (ext "twitter" p)
  else if platform = "facebook" then postToFacebook cfg p (ext "facebook" p)
  else if platform = "instagram" then postToInstagram cfg p (ext "instagram" p)
  else if platform = "tiktok" then postToTikTok p now
  else if platform = "pinterest" then postToPinterest cfg p (ext "pinterest" p)
  else if platform = "ebay" then postToEbay p now
  else (none, false)

/-- The inner platform loop of runBotCycle for one product: posts to
each requested platform in caller order and pushes a PostResult only
when the returned postId is truthy (if (postId): non-null and
non-empty). The tick counter advances once per platform iteration and
is sampled at the push, standing for Date.now(). -/
def postLoop (cfg : EngineConfig) (ext : String → Product → ExtOutcome) (tag : String)
    (p : Product) : List String → Nat → List PostResult × Nat
  | [], t => ([], t)
  | platform :: rest, t =>
    let pid := (platformPost cfg ext platform p t).1
    let next := postLoop cfg ext tag p rest (t + 1)
    match pid with
    | some id =>
      if id = "" then next
      else (⟨platform, id, p.title, generateAffiliateLinks tag p, t⟩ :: next.1, next.2)
    | none => next

/-- The outer product loop of runBotCycle: products in fetch order,
results accumulated in push order (the per-product try/catch and the
2-second delay introduce no effects in this model). -/
def productLoop (cfg : EngineConfig) (ext : String → Product → ExtOutcome) (tag : String)
    (platforms : List String) : List Product → Nat → List PostResult × Nat
  | [], t => ([], t)
  | p :: rest, t =>
    let first := postLoop cfg ext tag p platforms t
    let next := productLoop cfg ext tag platforms rest first.2
    (first.1 ++ next.1, next.2)

/-- runBotCycle: fetch up to 5 products for the keyword, then for each
product in fetch order post to each requested platform in caller order,
recording a PostResult per truthy publish outcome. -/
def runBotCycle (cfg : EngineConfig) (tag : String)
    (ext : String → Product → ExtOutcome) (keyword : String) (resp : AmazonResponse)
    (platforms : List String) (t0 : Nat) : List PostResult :=
  (productLoop cfg ext tag platforms (fetchAmazonProducts keyword 5 resp) t0).1

/-- Whether the publisher dispatched for this platform name yields a
truthy post identifier (clock-independent, see the lemmas below). -/
def publishSucceeds (cfg : EngineConfig) (ext : String → Product → ExtOutcome)
    (platform : String) (p : Product) : Bool :=
  ((platformPost cfg ext platform p 0).1).isSome

/-! ## RealBotEngine: earnings aggregation -/

/-- Outcome of one provider earnings query: the reported number, or a
thrown error (missing token, network, auth) that the getter's own
catch block absorbs. -/
inductive ProviderOutcome where
  | ok (v : ℚ)
  | fail
deriving DecidableEq

/-- getAmazonEarnings: the response total, with any error converted to
0 by the getter's catch block. -/
def getAmazonEarnings : ProviderOutcome → ℚ
  | ProviderOutcome.ok v => v
  | ProviderOutcome.fail => 0

/-- getClickbankEarnings: same shape as the Amazon getter. -/
def getClickbankEarnings : ProviderOutcome → ℚ
  | ProviderOutcome.ok v => v
  | ProviderOutcome.fail => 0

/-- getEbayEarnings: OAuth failure or API error yields 0; a successful
response yields the reduce-summed performance total (already summed in
the ok payload here). -/
def getEbayEarnings : ProviderOutcome → ℚ
  | ProviderOutcome.ok v => v
  | ProviderOutcome.fail => 0

/-- The earnings snapshot returned by the engine aggregator. -/
structure Earnings where
  amazon : ℚ
  clickbank : ℚ
  ebay : ℚ
  total : ℚ
  timestamp : Nat
deriving DecidableEq

/-- trackAffiliateEarnings (engine): queries the three providers in
sequence (each getter swallows its own failure) and sums the values. -/
def trackAffiliateEarnings (a c e : ProviderOutcome) (now : Nat) : Earnings :=
  let amazonEarnings := getAmazonEarnings a
  let clickbankEarnings := getClickbankEarnings c
  let ebayEarnings := getEbayEarnings e
  ⟨amazonEarnings, clickbankEarnings, ebayEarnings,
    amazonEarnings + clickbankEarnings + ebayEarnings, now⟩

/-! ## Server state: users, withdrawals, bots, events -/

/-- One recorded withdrawal, as appended to the global index and the
user's history. -/
structure Withdrawal where
  id : String
  userId : String
  amount : ℚ
  method : String
  date : Nat
  status : String
  transactionId : String
  fee : ℚ
  processingTime : String
deriving DecidableEq

/-- A user record. The dashboard-only fields (botStats, cryptoWallets,
activities, settings) are not touched by any modelled operation and are
omitted. -/
structure User where
  id : String
  totalEarnings : ℚ
  availableBalance : ℚ
  totalRevenue : ℚ
  totalProfit : ℚ
  activeBots : List (String × Bool)
  withdrawalHistory : List Withdrawal
deriving DecidableEq

/-- Per (user, platform) bot configuration stored by startBot. -/
structure BotConfig where
  keywords : List String
  platforms : List String
deriving DecidableEq

/-- A Socket.IO event pushed to the user's session group. -/
inductive Event where
  | botActivity (userId platform message : String)
  | earningUpdate (userId : String) (amount : ℚ)
  | withdrawalStatus (userId withdrawalId status : String) (amount : ℚ)
deriving DecidableEq

/-- Whole-server state: the three global maps, the BotManager maps, the
set of live interval handles (with the key they were created for), the
interval-handle counter and the emitted event log. -/
structure SysState where
  users : List (String × User)
  withdrawals : List (String × Withdrawal)
  botIntervals : List (String × Nat)
  userConfigs : List (String × BotConfig)
  liveTimers : List (String × Nat)
  nextTimerId : Nat
  events : List Event
deriving DecidableEq

/-- A raised JS error: a TypeError from an undefined access, or a
plain thrown Error with its message. -/
inductive JsError where
  | typeError (msg : String)
  | jsError (msg : String)
deriving DecidableEq

/-- The userId_platform key used by the BotManager maps. -/
def botKey (userId platform : String) : String := userId ++ "_" ++ platform

/-! ## BotManager -/

/-- BotManager.startBot. users.get(userId) is undefined for an unknown
user, and the guard then assigns a property on undefined, raising
TypeError before anything is touched. For a known user it sets the
active flag, overwrites the per-key config (default keywords when the
caller supplies none), installs a fresh interval — appending it to the
live set and overwriting the tracked handle WITHOUT clearing a
previously tracked one — and emits a start notification. -/
def startBot (s : SysState) (userId platform : String) (keywords : List String) :
    Except JsError SysState :=
  match mapGet s.users userId with
  | none => Except.error (JsError.typeError "Cannot set properties of undefined")
  | some user =>
    let user := { user with activeBots := mapSet user.activeBots platform true }
    let key := botKey userId platform
    let cfg : BotConfig :=
      ⟨if keywords.isEmpty then ["trending", "popular", "bestseller"] else keywords,
        [platform]⟩
    let tid := s.nextTimerId
    Except.ok
      { s with
        users := mapSet s.users userId user
        userConfigs := mapSet s.userConfigs key cfg
        liveTimers := s.liveTimers ++ [(key, tid)]
        botIntervals := mapSet s.botIntervals key tid
        nextTimerId := tid + 1
        events := s.events ++
          [Event.botActivity userId platform
            "Real bot started - posting to social media"] }

/-- The HTTP layer around startBot: the route's try/catch turns a
thrown error into a failure response, leaving the state as it was. -/
def startBotState (s : SysState) (userId platform : String)
    (keywords : List String) : SysState :=
  match startBot s userId platform keywords with
  | Except.ok s₁ => s₁
  | Except.error _ => s

/-- BotManager.stopBot: clears the active flag when the user exists,
cancels the tracked interval for the key if one is tracked (only that
handle), deletes the tracking entry, and emits a stop notification. -/
def stopBot (s : SysState) (userId platform : String) : SysState :=
  let s₁ :=
    match mapGet s.users userId with
    | some user =>
      let user₁ := { user with activeBots := mapSet user.activeBots platform false }
      { s with users := mapSet s.users userId user₁ }
    | none => s
  let key := botKey userId platform
  let s₂ :=
    match mapGet s₁.botIntervals key with
    | some tid =>
      { s₁ with
        liveTimers := s₁.liveTimers.filter (fun entry => entry.2 != tid)
        botIntervals := mapDelete s₁.botIntervals key }
    | none => s₁
  { s₂ with events := s₂.events ++ [Event.botActivity userId platform "Bot stopped"] }

/-- BotManager.runRealBotCycle: the recurring tick. It re-validates the
active flag and the stored config before doing anything; when active it
emits the fetching notice, runs the engine cycle per configured keyword
(the engine call is the injected cycleRunner), polls earnings, applies
a positive total additively to the user's financial fields (profit at
80 percent of the total) with the earning notifications, and emits the
completion notice. -/
def runRealBotCycle (s : SysState) (userId platform : String)
    (cycleRunner : String → List String → List PostResult)
    (a c e : ProviderOutcome) (now : Nat) : SysState :=
  match mapGet s.users userId with
  | none => s
  | some user =>
    if mapGet user.activeBots platform = some true then
      match mapGet s.userConfigs (botKey userId platform) with
      | none => s
      | some config =>
        let s₁ := { s with events := s.events ++
            [Event.botActivity userId platform
              "Fetching real products from Amazon..."] }
        let searchResults :=
          config.keywords.flatMap (fun kw => cycleRunner kw config.platforms)
        let earnings := trackAffiliateEarnings a c e now
        let doneMsg := "Real cycle completed. Posted "
            ++ toString searchResults.length ++ " products"
        if 0 < earnings.total then
          let user₁ :=
            { user with
              totalEarnings := user.totalEarnings + earnings.total
              availableBalance := user.availableBalance + earnings.total
              totalRevenue := user.totalRevenue + earnings.total
              totalProfit := user.totalProfit + earnings.total * (8 / 10) }
          { s₁ with
            users := mapSet s₁.users userId user₁
            events := s₁.events ++
              [Event.earningUpdate userId earnings.total,
                Event.botActivity userId platform "REAL EARNINGS",
                Event.botActivity userId platform doneMsg] }
        else
          { s₁ with events := s₁.events ++ [Event.botActivity userId platform doneMsg] }
    else s

/-- Result payload of a manual cycle. -/
structure ManualCycleResult where
  success : Bool
  posts : List PostResult
  earnings : ℚ
  timestamp : Nat
deriving DecidableEq

/-- BotManager.runManualCycle: requires a stored config for the key —
throwing the not-started error first, before any emit or engine call —
then runs one cycle for the keyword on the single platform and polls
earnings. -/
def runManualCycle (s : SysState) (userId platform keyword : String)
    (cycleRunner : String → List String → List PostResult)
    (a c e : ProviderOutcome) (now : Nat) :
    SysState × Except JsError ManualCycleResult :=
  match mapGet s.userConfigs (botKey userId platform) with
  | none => (s, Except.error (JsError.jsError "Bot not started - start the bot first"))
  | some _ =>
    let s₁ := { s with events := s.events ++
        [Event.botActivity userId platform ("Manual run: searching " ++ keyword)] }
    let results := cycleRunner keyword [platform]
    let earnings := trackAffiliateEarnings a c e now
    (s₁, Except.ok ⟨true, results, earnings.total, now⟩)

/-! ## Server earnings endpoints -/

/-- The object shape returned by the server-side trackAffiliateEarnings
wrapper: total, per-provider breakdown, timestamp, source tag. It has
exactly these properties — in particular no length property. -/
structure ServerEarnings where
  total : ℚ
  breakdown : List (String × ℚ)
  timestamp : Option Nat
  source : Option String
deriving DecidableEq

/-- The server-side trackAffiliateEarnings wrapper: an unknown user
gets a zero snapshot; otherwise the engine aggregate is repackaged. -/
def serverTrackAffiliateEarnings (users : List (String × User)) (userId : String)
    (a c e : ProviderOutcome) (now : Nat) : ServerEarnings :=
  match mapGet users userId with
  | none => ⟨0, [], none, none⟩
  | some _ =>
    let r := trackAffiliateEarnings a c e now
    ⟨r.total, [("amazon", r.amazon), ("clickbank", r.clickbank), ("ebay", r.ebay)],
      some now, some "real-api"⟩

/-- Reading earnings.length: the snapshot object carries no length
property, so the JS property read yields undefined on every snapshot. -/
def earningsLength (_e : ServerEarnings) : Option ℚ := none

/-- The JS comparison x greater-than 0 where x may be undefined:
undefined compares false against every number. -/
def jsGtZero : Option ℚ → Bool
  | none => false
  | some x => decide (0 < x)

/-- POST /api/track-earnings: polls the wrapper, then guards the user
update on earnings.length greater-than 0. Were the guard ever true,
earnings.forEach on a non-array would throw a TypeError into the
route's catch (failure response, no mutation); the Bool is the
response's success flag. -/
def trackEarningsEndpoint (s : SysState) (userId : String)
    (a c e : ProviderOutcome) (now : Nat) : SysState × Bool :=
  let earnings := serverTrackAffiliateEarnings s.users userId a c e now
  match mapGet s.users userId with
  | some _ =>
    if jsGtZero (earningsLength earnings) then (s, false)
    else (s, true)
  | none => (s, true)

/-- The 30-second background earnings loop: per user, polls the wrapper
and guards the same update on earnings.length greater-than 0; the
per-user try/catch would swallow the forEach TypeError, leaving the
user unchanged either way. -/
def backgroundEarningsTick (s : SysState) (a c e : ProviderOutcome) (now : Nat) :
    SysState :=
  { s with users := s.users.map (fun entry =>
      let earnings := serverTrackAffiliateEarnings s.users entry.1 a c e now
      if jsGtZero (earningsLength earnings) then (entry.1, entry.2) else entry) }

/-! ## Withdrawals -/

/-- Processor-side outcome of one payment attempt: the reported status
and transaction id, or a thrown error (network, not configured). -/
inductive ProcOutcome where
  | result (status : String) (transactionId : String)
  | raise (msg : String)
deriving DecidableEq

/-- The paymentResult object built by processWithdrawal. -/
structure PaymentResult where
  success : Bool
  transactionId : String
  fee : ℚ
  processingTime : String
deriving DecidableEq

/-- processWithdrawal: per payment method, turn the processor outcome
into a PaymentResult — stripe succeeds only on status succeeded, paypal
only on COMPLETED, bank always succeeds with zero fee — or rethrow the
processor error; unknown methods throw. -/
def processWithdrawal (method : String) (amount : ℚ) (proc : ProcOutcome)
    (now : Nat) : Except String PaymentResult :=
  if method = "stripe" then
    match proc with
    | ProcOutcome.result status tid =>
      Except.ok ⟨status == "succeeded", tid, amount * (29 / 1000) + 3 / 10, "instant"⟩
    | ProcOutcome.raise msg => Except.error msg
  else if method = "paypal" then
    match proc with
    | ProcOutcome.result status tid =>
      Except.ok ⟨status == "COMPLETED", tid, amount * (349 / 10000) + 3 / 10, "instant"⟩
    | ProcOutcome.raise msg => Except.error msg
  else if method = "bank" then
    Except.ok ⟨true, "bank_" ++ toString now, 0, "1-3 business days"⟩
  else Except.error "Unsupported payment method"

/-- Response of the withdrawal route. -/
inductive WithdrawResponse where
  | ok (withdrawalId transactionId : String)
  | failure (msg : String)
deriving DecidableEq

/-- Body of a withdrawal request. -/
structure WithdrawRequest where
  userId : String
  amount : ℚ
  method : String
deriving DecidableEq

/-- POST /api/withdraw: process the payment; on reported success
decrement the user's balance, record the withdrawal in the global index
and at the head of the user's history, and emit completed; on a thrown
error or a reported failure (which the route turns into a throw) emit
failed and answer failure, touching neither map. -/
def withdrawEndpoint (s : SysState) (req : WithdrawRequest) (proc : ProcOutcome)
    (now : Nat) : SysState × WithdrawResponse :=
  let wid := "withdraw_" ++ toString now
  match processWithdrawal req.method req.amount proc now with
  | Except.error msg =>
    ({ s with events := s.events ++
        [Event.withdrawalStatus req.userId wid "failed" req.amount] },
      WithdrawResponse.failure msg)
  | Except.ok pr =>
    if pr.success then
      let w : Withdrawal :=
        ⟨wid, req.userId, req.amount, req.method, now, "completed",
          pr.transactionId, pr.fee, pr.processingTime⟩
      match mapGet s.users req.userId with
      | some user =>
        let user₁ :=
          { user with
            availableBalance := user.availableBalance - req.amount
            withdrawalHistory := w :: user.withdrawalHistory }
        ({ s with
            users := mapSet s.users req.userId user₁
            withdrawals := mapSet s.withdrawals wid w
            events := s.events ++
              [Event.withdrawalStatus req.userId wid "completed" req.amount] },
          WithdrawResponse.ok wid pr.transactionId)
      | none =>
        ({ s with
            withdrawals := mapSet s.withdrawals wid w
            events := s.events ++
              [Event.withdrawalStatus req.userId wid "completed" req.amount] },
          WithdrawResponse.ok wid pr.transactionId)
    else
      ({ s with events := s.events ++
          [Event.withdrawalStatus req.userId wid "failed" req.amount] },
        WithdrawResponse.failure "Payment processing failed")

/-! ## Fixtures shared by the claim theorems -/

/-- An engine with no platform credentials configured at all. -/
def noCreds : EngineConfig :=
  ⟨false, false, false, false, false, false, false, false, false⟩

/-- An engine whose only configured piece is the pinterest config
object — with no access token in it. -/
def pinterestOnly : EngineConfig :=
  ⟨false, false, false, false, false, true, false, false, false⟩

def sampleProduct : Product := ⟨"B0EXAMPLE1", "Sample Item"⟩

def c3ProductA : Product := ⟨"B0AAAAAAA1", "Wireless Earbuds A"⟩

def c3ProductB : Product := ⟨"B0BBBBBBB2", "Wireless Earbuds B"⟩

/-- Fixture cycle for C3: a product source returning two products and
the two requested publishers that always succeed. -/
def c3Fixture : List PostResult :=
  runBotCycle noCreds "your-tag-20" (fun _ _ => ExtOutcome.err) "wireless earbuds"
    (AmazonResponse.ok (some [c3ProductA, c3ProductB])) ["tiktok", "ebay"] 0

/-- An external oracle that always returns the same non-empty id. -/
def extAlwaysOk : String → Product → ExtOutcome := fun _ _ => ExtOutcome.ok "ext_post_1"

def freshUser (uid : String) : User := ⟨uid, 0, 0, 0, 0, [], []⟩

/-- A server with a single registered user and no bots started. -/
def oneUserState : SysState := ⟨[("user1", freshUser "user1")], [], [], [], [], 0, []⟩

/-- The empty server state. -/
def emptyState : SysState := ⟨[], [], [], [], [], 0, []⟩

def activeUser : User := ⟨"user2", 10, 10, 10, 10, [("twitter", true)], []⟩

/-- A server where user2 has a started, active twitter bot. -/
def activeState : SysState :=
  ⟨[("user2", activeUser)], [], [("user2_twitter", 0)],
    [("user2_twitter", ⟨["trending"], ["twitter"]⟩)], [("user2_twitter", 0)], 1, []⟩

/-! ## Helper lemmas for the cycle runner -/

theorem string_append_ne_empty (s t : String) (hs : s ≠ "") : s ++ t ≠ "" := by
  intro h
  apply hs
  have hd : s.data ++ t.data = [] := congrArg String.data h
  have h₁ : s.data = [] := (List.append_eq_nil.mp hd).1
  cases s
  simp_all

/-- Whether the dispatched publisher returns some id does not depend on
the clock tick (only the fabricated tiktok and ebay ids mention it, and
those are always some). -/
theorem platformPost_isSome_clock (cfg : EngineConfig)
    (ext : String → Product → ExtOutcome) (platform : String) (p : Product) (t : Nat) :
    ((platformPost cfg ext platform p t).1).isSome
      = ((platformPost cfg ext platform p 0).1).isSome := by
  unfold platformPost
  split_ifs <;> rfl

/-- Under an oracle that never returns an empty id, every id the
dispatched publisher returns is non-empty (the fabricated tiktok and
ebay ids have non-empty literal prefixes). -/
theorem platformPost_id_ne_empty (cfg : EngineConfig)
    (ext : String → Product → ExtOutcome) (platform : String) (p : Product) (t : Nat)
    (id : String) (hext : ∀ pl q idx, ext pl q = ExtOutcome.ok idx → idx ≠ "")
    (h : (platformPost cfg ext platform p t).1 = some id) : id ≠ "" := by
  unfold platformPost at h
  split_ifs at h
  · unfold postToTwitter at h
    cases hx : ext "twitter" p with
    | ok idx =>
      rw [hx] at h
      split_ifs at h
      simp at h
      exact h ▸ hext "twitter" p idx hx
    | err =>
      rw [hx] at h
      split_ifs at h
  · unfold postToFacebook at h
    cases hx : ext "facebook" p with
    | ok idx =>
      rw [hx] at h
      split_ifs at h
      simp at h
      exact h ▸ hext "facebook" p idx hx
    | err =>
      rw [hx] at h
      split_ifs at h
  · unfold postToInstagram at h
    cases hx : ext "instagram" p with
    | ok idx =>
      rw [hx] at h
      split_ifs at h
      simp at h
      exact h ▸ hext "instagram" p idx hx
    | err =>
      rw [hx] at h
      split_ifs at h
  · unfold postToTikTok at h
    simp at h
    exact h ▸ string_append_ne_empty "tiktok_" (toString t) (by decide)
  · unfold postToPinterest at h
    cases hx : ext "pinterest" p with
    | ok idx =>
      rw [hx] at h
      split_ifs at h
      simp at h
      exact h ▸ hext "pinterest" p idx hx
    | err =>
      rw [hx] at h
      split_ifs at h
  · unfold postToEbay at h
    simp at h
    exact h ▸ string_append_ne_empty "ebay_" (toString t) (by decide)

/-! ## Claim C1 -/

/-- C1: after calling startBot twice for (user1, twitter) and stopBot
once, the live-timer count for the key is NOT zero: the second start
overwrote the tracked interval handle without clearing the first, and
stop cancels only the tracked handle, so exactly one recurring
interval stays live for the key (while the key is no longer tracked in
botIntervals). -/
theorem startTwice_stopOnce_leaves_live_timer :
    (((stopBot (startBotState (startBotState oneUserState "user1" "twitter" [])
          "user1" "twitter" []) "user1" "twitter").liveTimers.filter
        (fun entry => entry.1 == botKey "user1" "twitter")).length = 1)
    ∧ mapGet (stopBot (startBotState (startBotState oneUserState "user1" "twitter" [])
          "user1" "twitter" []) "user1" "twitter").botIntervals
        (botKey "user1" "twitter") = none := by
  constructor
  · decide
  · decide

/-! ## Claim C2 -/

/-- C2 counterexample: with no TikTok credentials configured at all,
the TikTok publisher does not return null — it fabricates a local
identifier without attempting any external call — refuting the claim
that every publisher returns null when its credentials are absent. -/
theorem postToTikTok_not_null_without_creds :
    credsConfigured Plat.tiktok noCreds = false
    ∧ (publish Plat.tiktok noCreds sampleProduct ExtOutcome.err 5).1 = some "tiktok_5"
    ∧ (publish Plat.tiktok noCreds sampleProduct ExtOutcome.err 5).2 = false := by
  refine ⟨rfl, rfl, rfl⟩

/-- C2 (amended): the Twitter, Facebook and Instagram publishers
return null immediately with no external call attempted when their
credentials are not configured, and so does Pinterest when its config
object is entirely absent; the TikTok and eBay publishers ignore
credentials and always return a locally fabricated identifier with no
external call; and a present Pinterest config — even one with no
access token — leads to an attempted external call. -/
theorem publish_credential_guards (cfg : EngineConfig) (p : Product)
    (ext : ExtOutcome) (now : Nat) :
    (cfg.twitterClient = false → postToTwitter cfg p ext = (none, false))
    ∧ ((cfg.facebookClient && cfg.facebookPageId) = false →
        postToFacebook cfg p ext = (none, false))
    ∧ ((cfg.instagramClient && cfg.instagramUserId) = false →
        postToInstagram cfg p ext = (none, false))
    ∧ postToTikTok p now = (some ("tiktok_" ++ toString now), false)
    ∧ postToEbay p now = (some ("ebay_" ++ toString now), false)
    ∧ (cfg.pinterestPresent = false → postToPinterest cfg p ext = (none, false))
    ∧ (cfg.pinterestPresent = true → (postToPinterest cfg p ext).2 = true) := by
  refine ⟨?_, ?_, ?_, rfl, rfl, ?_, ?_⟩
  · intro h; simp [postToTwitter, h]
  · intro h; simp [postToFacebook, h]
  · intro h; simp [postToInstagram, h]
  · intro h; simp [postToPinterest, h]
  · intro h
    cases ext with
    | ok id => simp [postToPinterest, h]
    | err => simp [postToPinterest, h]

/-- Witness for C2's amended theorem at concrete inputs. -/
theorem publish_credential_guards_witness :
    postToTwitter noCreds sampleProduct ExtOutcome.err = (none, false)
    ∧ (postToPinterest pinterestOnly sampleProduct ExtOutcome.err).2 = true := by
  exact ⟨(publish_credential_guards noCreds sampleProduct ExtOutcome.err 0).1 rfl,
    (publish_credential_guards pinterestOnly sampleProduct
      ExtOutcome.err 0).2.2.2.2.2.2 rfl⟩

/-! ## Claim C4 -/

/-- C4: the aggregator queries each provider independently — the
per-provider field always equals that provider's own getter value, so a
failure of one provider cannot change another's contribution — a
failed provider contributes 0 through its own catch block, and the
total is the arithmetic sum of the three per-provider values; the
raising/42 fixture yields total 42 with the failing providers at 0. -/
theorem trackAffiliateEarnings_spec (a c e : ProviderOutcome) (now : Nat) :
    ((trackAffiliateEarnings a c e now).total
        = getAmazonEarnings a + getClickbankEarnings c + getEbayEarnings e)
    ∧ (trackAffiliateEarnings a c e now).amazon = getAmazonEarnings a
    ∧ (trackAffiliateEarnings a c e now).clickbank = getClickbankEarnings c
    ∧ (trackAffiliateEarnings a c e now).ebay = getEbayEarnings e
    ∧ getAmazonEarnings ProviderOutcome.fail = 0
    ∧ getClickbankEarnings ProviderOutcome.fail = 0
    ∧ getEbayEarnings ProviderOutcome.fail = 0
    ∧ trackAffiliateEarnings ProviderOutcome.fail (ProviderOutcome.ok 42)
        ProviderOutcome.fail 7 = ⟨0, 42, 0, 42, 7⟩ := by
  refine ⟨rfl, rfl, rfl, rfl, rfl, rfl, rfl, ?_⟩
  simp only [trackAffiliateEarnings, getAmazonEarnings, getClickbankEarnings,
    getEbayEarnings]
  norm_num

/-! ## Claim C5 -/

/-- C5: when the payment processor reports failure (PaymentResult with
success false), the withdrawal endpoint answers with a failed status
and performs no state change beyond the failure notification: every
user record (balance and withdrawal history included) and the global
withdrawal index are exactly as before. -/
theorem withdraw_failure_frame (s : SysState) (req : WithdrawRequest)
    (proc : ProcOutcome) (now : Nat) (pr : PaymentResult)
    (hok : processWithdrawal req.method req.amount proc now = Except.ok pr)
    (hfail : pr.success = false) :
    (withdrawEndpoint s req proc now).1.users = s.users
    ∧ (withdrawEndpoint s req proc now).1.withdrawals = s.withdrawals
    ∧ (withdrawEndpoint s req proc now).2
        = WithdrawResponse.failure "Payment processing failed"
    ∧ (withdrawEndpoint s req proc now).1.events
        = s.events ++ [Event.withdrawalStatus req.userId
            ("withdraw_" ++ toString now) "failed" req.amount] := by
  unfold withdrawEndpoint
  rw [hok]
  simp [hfail]

/-- Witness for C5 at a concrete processor-reported stripe failure. -/
theorem withdraw_failure_frame_witness :
    (withdrawEndpoint oneUserState ⟨"user1", 50, "stripe"⟩
        (ProcOutcome.result "requires_payment_method" "pi_123") 9).1.users
      = oneUserState.users
    ∧ (withdrawEndpoint oneUserState ⟨"user1", 50, "stripe"⟩
        (ProcOutcome.result "requires_payment_method" "pi_123") 9).2
      = WithdrawResponse.failure "Payment processing failed" := by
  have h := withdraw_failure_frame oneUserState ⟨"user1", 50, "stripe"⟩
    (ProcOutcome.result "requires_payment_method" "pi_123") 9
    ⟨"requires_payment_method" == "succeeded", "pi_123",
      50 * (29 / 1000) + 3 / 10, "instant"⟩ rfl rfl
  exact ⟨h.1, h.2.2.1⟩

/-! ## Claim C6 -/

/-- C6: a manual cycle for a (user, platform) key that was never
started throws the not-started error first — a caller-error condition
— and has no side effects at all: the state (users, events, and every
other component) is returned untouched. -/
theorem runManualCycle_not_started (s : SysState) (userId platform keyword : String)
    (cycleRunner : String → List String → List PostResult)
    (a c e : ProviderOutcome) (now : Nat)
    (h : mapGet s.userConfigs (botKey userId platform) = none) :
    runManualCycle s userId platform keyword cycleRunner a c e now
      = (s, Except.error (JsError.jsError "Bot not started - start the bot first")) := by
  unfold runManualCycle
  rw [h]

/-- Witness for C6: manual trigger on a fresh server. -/
theorem runManualCycle_not_started_witness :
    runManualCycle oneUserState "user1" "twitter" "trending products"
        (fun _ _ => []) ProviderOutcome.fail ProviderOutcome.fail ProviderOutcome.fail 3
      = (oneUserState,
          Except.error (JsError.jsError "Bot not started - start the bot first")) :=
  runManualCycle_not_started oneUserState "user1" "twitter" "trending products"
    (fun _ _ => []) ProviderOutcome.fail ProviderOutcome.fail ProviderOutcome.fail 3 rfl

/-! ## Claim C7 -/

/-- C7: fetchAmazonProducts never raises to its caller — any provider
failure is absorbed into the empty list — and, since the engine
forwards maxProducts to the provider as the ItemCount bound and
returns its item list as-is, the result length is at most maxProducts
whenever the provider honours the requested bound. -/
theorem fetchAmazonProducts_spec (keyword : String) (maxProducts : Nat)
    (resp : AmazonResponse)
    (hbound : ∀ items, resp = AmazonResponse.ok (some items) →
      items.length ≤ maxProducts) :
    (fetchAmazonProducts keyword maxProducts resp).length ≤ maxProducts
    ∧ ∀ msg, fetchAmazonProducts keyword maxProducts (AmazonResponse.fail msg) = [] := by
  refine ⟨?_, fun msg => rfl⟩
  cases resp with
  | ok items =>
    cases items with
    | some l => simpa [fetchAmazonProducts] using hbound l rfl
    | none => simp [fetchAmazonProducts]
  | fail msg => simp [fetchAmazonProducts]

/-- Witness for C7 at a concrete two-item response. -/
theorem fetchAmazonProducts_spec_witness :
    (fetchAmazonProducts "wireless earbuds" 5
        (AmazonResponse.ok (some [c3ProductA, c3ProductB]))).length ≤ 5
    ∧ fetchAmazonProducts "wireless earbuds" 5 (AmazonResponse.fail "network") = [] := by
  have h := fetchAmazonProducts_spec "wireless earbuds" 5
    (AmazonResponse.ok (some [c3ProductA, c3ProductB]))
    (by intro items hi; cases hi; decide)
  exact ⟨h.1, h.2 "network"⟩

/-! ## Claim C9 -/

/-- C9: the earnings snapshot object has no length property, so the JS
guard earnings.length greater-than 0 reads undefined and is false on
every call: the track-earnings endpoint answers success while leaving
the whole state untouched, and the 30-second background loop leaves
the state untouched — no user's financial totals can ever be modified
by either. -/
theorem earnings_update_unreachable (s : SysState) (userId : String)
    (a c e : ProviderOutcome) (now : Nat) (snapshot : ServerEarnings) :
    jsGtZero (earningsLength snapshot) = false
    ∧ trackEarningsEndpoint s userId a c e now = (s, true)
    ∧ backgroundEarningsTick s a c e now = s := by
  refine ⟨rfl, ?_, ?_⟩
  · unfold trackEarningsEndpoint
    cases mapGet s.users userId <;> rfl
  · unfold backgroundEarningsTick
    simp

/-! ## Claim C10 -/

/-- C10: startBot for a userId with no record in the user registry
raises a TypeError (the guard assigns activeBots on undefined) instead
of lazily creating the user: it returns the error without installing
any timer, storing any config, or setting any flag. -/
theorem startBot_unknown_user (s : SysState) (userId platform : String)
    (keywords : List String) (h : mapGet s.users userId = none) :
    startBot s userId platform keywords
      = Except.error (JsError.typeError "Cannot set properties of undefined") := by
  unfold startBot
  rw [h]

/-- Witness for C10: starting a bot for a user the registry has never
seen. -/
theorem startBot_unknown_user_witness :
    startBot emptyState "ghost" "twitter" []
      = Except.error (JsError.typeError "Cannot set properties of undefined") :=
  startBot_unknown_user emptyState "ghost" "twitter" [] rfl

/-! ## Claim C3 -/

/-- Projection of the inner platform loop: for one product, the
(product title, platform) pairs recorded are exactly the requested
platforms whose dispatched publisher succeeds, in caller order,
independently of the clock tick. -/
theorem postLoop_proj (cfg : EngineConfig) (ext : String → Product → ExtOutcome)
    (tag : String) (p : Product)
    (hext : ∀ pl q id, ext pl q = ExtOutcome.ok id → id ≠ "") :
    ∀ (platforms : List String) (t : Nat),
      ((postLoop cfg ext tag p platforms t).1).map (fun r => (r.product, r.platform))
        = (platforms.filter (fun pl => publishSucceeds cfg ext pl p)).map
            (fun pl => (p.title, pl)) := by
  intro platforms
  induction platforms with
  | nil => intro t; rfl
  | cons pl rest ih =>
    intro t
    have hsucc : publishSucceeds cfg ext pl p
        = ((platformPost cfg ext pl p t).1).isSome := by
      unfold publishSucceeds
      rw [platformPost_isSome_clock cfg ext pl p t]
    cases hpid : (platformPost cfg ext pl p t).1 with
    | none =>
      have hs : publishSucceeds cfg ext pl p = false := by
        rw [hsucc, hpid]; rfl
      simp only [postLoop, hpid, List.filter_cons, hs]
      exact ih (t + 1)
    | some id =>
      have hne : id ≠ "" := platformPost_id_ne_empty cfg ext pl p t id hext hpid
      have hs : publishSucceeds cfg ext pl p = true := by
        rw [hsucc, hpid]; rfl
      simp only [postLoop, hpid, List.filter_cons, hs, if_neg hne, if_pos,
        List.map_cons]
      exact congrArg (List.cons (p.title, pl)) (ih (t + 1))

/-- Projection of the outer product loop: product-major concatenation
of the per-product projections. -/
theorem productLoop_proj (cfg : EngineConfig) (ext : String → Product → ExtOutcome)
    (tag : String) (platforms : List String)
    (hext : ∀ pl q id, ext pl q = ExtOutcome.ok id → id ≠ "") :
    ∀ (products : List Product) (t : Nat),
      ((productLoop cfg ext tag platforms products t).1).map
          (fun r => (r.product, r.platform))
        = products.flatMap (fun p =>
            (platforms.filter (fun pl => publishSucceeds cfg ext pl p)).map
              (fun pl => (p.title, pl))) := by
  intro products
  induction products with
  | nil => intro t; rfl
  | cons p rest ih =>
    intro t
    simp only [productLoop, List.flatMap_cons, List.map_append]
    rw [postLoop_proj cfg ext tag p hext platforms t, ih]

/-- C3: runBotCycle records exactly one PostResult per (fetched
product, requested platform) pair whose dispatched publish returns a
non-null id, ordered by product fetch order then caller-supplied
platform order; on a failed fetch the result is the empty list (a
normal value, not an error); and the two-product fixture on the two
always-succeeding requested publishers yields exactly 4 results whose
(platform, product, timestamp) triples are pairwise distinct. -/
theorem runBotCycle_results (cfg : EngineConfig) (tag : String)
    (ext : String → Product → ExtOutcome) (keyword : String) (resp : AmazonResponse)
    (platforms : List String) (t0 : Nat)
    (hext : ∀ pl q id, ext pl q = ExtOutcome.ok id → id ≠ "") :
    ((runBotCycle cfg tag ext keyword resp platforms t0).map
        (fun r => (r.product, r.platform))
      = (fetchAmazonProducts keyword 5 resp).flatMap (fun p =>
          (platforms.filter (fun pl => publishSucceeds cfg ext pl p)).map
            (fun pl => (p.title, pl))))
    ∧ (∀ msg, runBotCycle cfg tag ext keyword (AmazonResponse.fail msg) platforms t0 = [])
    ∧ c3Fixture.length = 4
    ∧ (c3Fixture.map (fun r => (r.platform, r.product, r.timestamp))).Nodup := by
  refine ⟨productLoop_proj cfg ext tag platforms hext _ t0, fun msg => rfl, ?_, ?_⟩
  · decide
  · decide

/-- Witness for C3 at a concrete one-product, one-platform run with a
non-empty external id. -/
theorem runBotCycle_results_witness :
    (runBotCycle noCreds "your-tag-20" extAlwaysOk "wireless earbuds"
        (AmazonResponse.ok (some [c3ProductA])) ["tiktok"] 0).map
      (fun r => (r.product, r.platform)) = [("Wireless Earbuds A", "tiktok")] := by
  have h := runBotCycle_results noCreds "your-tag-20" extAlwaysOk "wireless earbuds"
    (AmazonResponse.ok (some [c3ProductA])) ["tiktok"] 0
    (by intro pl q id hid; cases hid; decide)
  rw [h.1]
  decide

/-! ## Claim C8 -/

/-- The additive earnings application of the recurring tick, applied
only for a positive polled total (spec-side restatement of the update
block). -/
def applyEarnings (u : User) (t : ℚ) : User :=
  if 0 < t then
    { u with
      totalEarnings := u.totalEarnings + t
      availableBalance := u.availableBalance + t
      totalRevenue := u.totalRevenue + t
      totalProfit := u.totalProfit + t * (8 / 10) }
  else u

/-- C8: the recurring tick is a strict no-op — identical state, so no
financial change and no emitted event — when the user is unknown, the
active flag is not true, or no config is stored for the key; when
active with a config, the user's record afterwards is exactly the old
record with the polled total applied additively when positive
(totalEarnings, availableBalance and totalRevenue increased by the
total, totalProfit by 0.8 of it) and unchanged otherwise. -/
theorem runRealBotCycle_spec (s : SysState) (userId platform : String)
    (cycleRunner : String → List String → List PostResult)
    (a c e : ProviderOutcome) (now : Nat) :
    ((mapGet s.users userId = none →
        runRealBotCycle s userId platform cycleRunner a c e now = s)
    ∧ (∀ u, mapGet s.users userId = some u → mapGet u.activeBots platform ≠ some true →
        runRealBotCycle s userId platform cycleRunner a c e now = s)
    ∧ (∀ u, mapGet s.users userId = some u →
        mapGet s.userConfigs (botKey userId platform) = none →
        runRealBotCycle s userId platform cycleRunner a c e now = s)
    ∧ (∀ u cfg, mapGet s.users userId = some u →
        mapGet u.activeBots platform = some true →
        mapGet s.userConfigs (botKey userId platform) = some cfg →
        mapGet (runRealBotCycle s userId platform cycleRunner a c e now).users userId
          = some (applyEarnings u (trackAffiliateEarnings a c e now).total))) := by
  refine ⟨?_, ?_, ?_, ?_⟩
  · intro h
    unfold runRealBotCycle
    rw [h]
  · intro u hu hflag
    unfold runRealBotCycle
    rw [hu]
    simp [hflag]
  · intro u hu hcfg
    unfold runRealBotCycle
    by_cases hflag : mapGet u.activeBots platform = some true
    · simp [hu, hcfg, hflag]
    · simp [hu, hflag]
  · intro u cfg hu hflag hcfg
    unfold runRealBotCycle
    by_cases ht : 0 < (trackAffiliateEarnings a c e now).total
    · simp [hu, hflag, hcfg, ht, applyEarnings, mapGet_mapSet_self]
    · simp [hu, hflag, hcfg, ht, applyEarnings]

/-- Witness for C8: an active bot with a positive polled total, and a
user without the started bot for whom the tick is a no-op. -/
theorem runRealBotCycle_spec_witness :
    mapGet (runRealBotCycle activeState "user2" "twitter" (fun _ _ => [])
        (ProviderOutcome.ok 10) ProviderOutcome.fail ProviderOutcome.fail 99).users
        "user2"
      = some (applyEarnings activeUser
          (trackAffiliateEarnings (ProviderOutcome.ok 10) ProviderOutcome.fail
            ProviderOutcome.fail 99).total)
    ∧ runRealBotCycle oneUserState "user1" "twitter" (fun _ _ => [])
        ProviderOutcome.fail ProviderOutcome.fail ProviderOutcome.fail 99
      = oneUserState := by
  constructor
  · exact (runRealBotCycle_spec activeState "user2" "twitter" (fun _ _ => [])
      (ProviderOutcome.ok 10) ProviderOutcome.fail ProviderOutcome.fail 99).2.2.2
      activeUser ⟨["trending"], ["twitter"]⟩ rfl rfl rfl
  · exact (runRealBotCycle_spec oneUserState "user1" "twitter" (fun _ _ => [])
      ProviderOutcome.fail ProviderOutcome.fail ProviderOutcome.fail 99).2.1
      (freshUser "user1") rfl (by decide)
